import Mathlib

/-!
Verification of the material parameter reconciliation engine of `material.rs`
(ARCropolis editor component).

The data model and operations below are a shallow embedding of
`src/material.rs`.  `MatlEntryData`, `Param` (the common shape of the Rust
`BlendStateParam`, `FloatParam`, `BooleanParam`, `Vector4Param`,
`RasterizerStateParam`, `SamplerParam`, `TextureParam` records) and
`ShaderProgram` mirror the `ssbh_data` / `ssbh_wgpu` records the code
consumes; the per-family payload types (Rust `BlendStateData`, `f32`,
`Vector4`, `RasterizerStateData`, `SamplerData`) are carried as type
parameters `B F V R S` with their Rust `Default::default()` value given by an
`Inhabited` instance, since the reconciler never inspects them.  Booleans are
`Bool` (default pushed is `false`) and texture payloads are `String` paths,
exactly as in the source.  Rust's in-place mutation of `&mut MatlEntryData`
becomes explicit state passing: `add_parameters` / `remove_parameters` return
the updated entry.
-/

set_option maxHeartbeats 1600000
set_option maxRecDepth 8192

/-- Modelled from the spec: `ParamId` is defined in the external `ssbh_data` crate
(not part of this repository). The spec's data model partitions it into the seven
disjoint semantic families BlendState{0..10}, RasterizerState{0..10},
CustomFloat{0..19}, CustomBoolean{0..19}, CustomVector{0..63}, Sampler{0..19},
Texture{0..19}; we enumerate exactly those identifiers. -/
inductive ParamId : Type where
  | BlendState0
  | BlendState1
  | BlendState2
  | BlendState3
  | BlendState4
  | BlendState5
  | BlendState6
  | BlendState7
  | BlendState8
  | BlendState9
  | BlendState10
  | RasterizerState0
  | RasterizerState1
  | RasterizerState2
  | RasterizerState3
  | RasterizerState4
  | RasterizerState5
  | RasterizerState6
  | RasterizerState7
  | RasterizerState8
  | RasterizerState9
  | RasterizerState10
  | CustomFloat0
  | CustomFloat1
  | CustomFloat2
  | CustomFloat3
  | CustomFloat4
  | CustomFloat5
  | CustomFloat6
  | CustomFloat7
  | CustomFloat8
  | CustomFloat9
  | CustomFloat10
  | CustomFloat11
  | CustomFloat12
  | CustomFloat13
  | CustomFloat14
  | CustomFloat15
  | CustomFloat16
  | CustomFloat17
  | CustomFloat18
  | CustomFloat19
  | CustomBoolean0
  | CustomBoolean1
  | CustomBoolean2
  | CustomBoolean3
  | CustomBoolean4
  | CustomBoolean5
  | CustomBoolean6
  | CustomBoolean7
  | CustomBoolean8
  | CustomBoolean9
  | CustomBoolean10
  | CustomBoolean11
  | CustomBoolean12
  | CustomBoolean13
  | CustomBoolean14
  | CustomBoolean15
  | CustomBoolean16
  | CustomBoolean17
  | CustomBoolean18
  | CustomBoolean19
  | CustomVector0
  | CustomVector1
  | CustomVector2
  | CustomVector3
  | CustomVector4
  | CustomVector5
  | CustomVector6
  | CustomVector7
  | CustomVector8
  | CustomVector9
  | CustomVector10
  | CustomVector11
  | CustomVector12
  | CustomVector13
  | CustomVector14
  | CustomVector15
  | CustomVector16
  | CustomVector17
  | CustomVector18
  | CustomVector19
  | CustomVector20
  | CustomVector21
  | CustomVector22
  | CustomVector23
  | CustomVector24
  | CustomVector25
  | CustomVector26
  | CustomVector27
  | CustomVector28
  | CustomVector29
  | CustomVector30
  | CustomVector31
  | CustomVector32
  | CustomVector33
  | CustomVector34
  | CustomVector35
  | CustomVector36
  | CustomVector37
  | CustomVector38
  | CustomVector39
  | CustomVector40
  | CustomVector41
  | CustomVector42
  | CustomVector43
  | CustomVector44
  | CustomVector45
  | CustomVector46
  | CustomVector47
  | CustomVector48
  | CustomVector49
  | CustomVector50
  | CustomVector51
  | CustomVector52
  | CustomVector53
  | CustomVector54
  | CustomVector55
  | CustomVector56
  | CustomVector57
  | CustomVector58
  | CustomVector59
  | CustomVector60
  | CustomVector61
  | CustomVector62
  | CustomVector63
  | Sampler0
  | Sampler1
  | Sampler2
  | Sampler3
  | Sampler4
  | Sampler5
  | Sampler6
  | Sampler7
  | Sampler8
  | Sampler9
  | Sampler10
  | Sampler11
  | Sampler12
  | Sampler13
  | Sampler14
  | Sampler15
  | Sampler16
  | Sampler17
  | Sampler18
  | Sampler19
  | Texture0
  | Texture1
  | Texture2
  | Texture3
  | Texture4
  | Texture5
  | Texture6
  | Texture7
  | Texture8
  | Texture9
  | Texture10
  | Texture11
  | Texture12
  | Texture13
  | Texture14
  | Texture15
  | Texture16
  | Texture17
  | Texture18
  | Texture19
deriving DecidableEq

/-- The numeric value underlying a `ParamId` (Rust `param_id as u64`): the
discriminant of the enum, here the constructor index. -/
def ParamId.toNat : ParamId → Nat :=
  ParamId.toCtorIdx

/-- Translation of `is_vector` in `material.rs`: `matches!` over the listed variants. -/
def is_vector (p : ParamId) : Bool :=
  match p with
  | .CustomVector0 | .CustomVector1 | .CustomVector2 | .CustomVector3 | .CustomVector4
  | .CustomVector5 | .CustomVector6 | .CustomVector7 | .CustomVector8 | .CustomVector9
  | .CustomVector10 | .CustomVector11 | .CustomVector12 | .CustomVector13 | .CustomVector14
  | .CustomVector15 | .CustomVector16 | .CustomVector17 | .CustomVector18 | .CustomVector19
  | .CustomVector20 | .CustomVector21 | .CustomVector22 | .CustomVector23 | .CustomVector24
  | .CustomVector25 | .CustomVector26 | .CustomVector27 | .CustomVector28 | .CustomVector29
  | .CustomVector30 | .CustomVector31 | .CustomVector32 | .CustomVector33 | .CustomVector34
  | .CustomVector35 | .CustomVector36 | .CustomVector37 | .CustomVector38 | .CustomVector39
  | .CustomVector40 | .CustomVector41 | .CustomVector42 | .CustomVector43 | .CustomVector44
  | .CustomVector45 | .CustomVector46 | .CustomVector47 | .CustomVector48 | .CustomVector49
  | .CustomVector50 | .CustomVector51 | .CustomVector52 | .CustomVector53 | .CustomVector54
  | .CustomVector55 | .CustomVector56 | .CustomVector57 | .CustomVector58 | .CustomVector59
  | .CustomVector60 | .CustomVector61 | .CustomVector62 | .CustomVector63 => true
  | _ => false

/-- Translation of `is_rasterizer` in `material.rs`: `matches!` over the listed variants. -/
def is_rasterizer (p : ParamId) : Bool :=
  match p with
  | .RasterizerState0 | .RasterizerState1 | .RasterizerState2 | .RasterizerState3
  | .RasterizerState4 | .RasterizerState5 | .RasterizerState6 | .RasterizerState7
  | .RasterizerState8 | .RasterizerState9 | .RasterizerState10 => true
  | _ => false

/-- Translation of `is_blend` in `material.rs`: `matches!` over the listed variants. -/
def is_blend (p : ParamId) : Bool :=
  match p with
  | .BlendState0 | .BlendState1 | .BlendState2 | .BlendState3 | .BlendState4 | .BlendState5
  | .BlendState6 | .BlendState7 | .BlendState8 | .BlendState9 | .BlendState10 => true
  | _ => false

/-- Translation of `is_float` in `material.rs`: `matches!` over the listed variants. -/
def is_float (p : ParamId) : Bool :=
  match p with
  | .CustomFloat0 | .CustomFloat1 | .CustomFloat2 | .CustomFloat3 | .CustomFloat4
  | .CustomFloat5 | .CustomFloat6 | .CustomFloat7 | .CustomFloat8 | .CustomFloat9
  | .CustomFloat10 | .CustomFloat11 | .CustomFloat12 | .CustomFloat13 | .CustomFloat14
  | .CustomFloat15 | .CustomFloat16 | .CustomFloat17 | .CustomFloat18 | .CustomFloat19 => true
  | _ => false

/-- Translation of `is_texture` in `material.rs`: `matches!` over the listed variants. -/
def is_texture (p : ParamId) : Bool :=
  match p with
  | .Texture0 | .Texture1 | .Texture2 | .Texture3 | .Texture4 | .Texture5 | .Texture6
  | .Texture7 | .Texture8 | .Texture9 | .Texture10 | .Texture11 | .Texture12 | .Texture13
  | .Texture14 | .Texture15 | .Texture16 | .Texture17 | .Texture18 | .Texture19 => true
  | _ => false

/-- Translation of `is_sampler` in `material.rs`: `matches!` over the listed variants. -/
def is_sampler (p : ParamId) : Bool :=
  match p with
  | .Sampler0 | .Sampler1 | .Sampler2 | .Sampler3 | .Sampler4 | .Sampler5 | .Sampler6
  | .Sampler7 | .Sampler8 | .Sampler9 | .Sampler10 | .Sampler11 | .Sampler12 | .Sampler13
  | .Sampler14 | .Sampler15 | .Sampler16 | .Sampler17 | .Sampler18 | .Sampler19 => true
  | _ => false

/-- Translation of `is_bool` in `material.rs`: `matches!` over the listed variants. -/
def is_bool (p : ParamId) : Bool :=
  match p with
  | .CustomBoolean0 | .CustomBoolean1 | .CustomBoolean2 | .CustomBoolean3 | .CustomBoolean4
  | .CustomBoolean5 | .CustomBoolean6 | .CustomBoolean7 | .CustomBoolean8 | .CustomBoolean9
  | .CustomBoolean10 | .CustomBoolean11 | .CustomBoolean12 | .CustomBoolean13 | .CustomBoolean14
  | .CustomBoolean15 | .CustomBoolean16 | .CustomBoolean17 | .CustomBoolean18 | .CustomBoolean19 => true
  | _ => false


/-- Common shape of the seven Rust parameter record types: a `ParamId` tag and
a family-specific payload. -/
structure Param (α : Type) where
  param_id : ParamId
  data : α
deriving DecidableEq

/-- Translation of `ssbh_data::matl_data::MatlEntryData` as used by
`material.rs`: a label, a shader label, and seven ordered family collections. -/
structure MatlEntryData (B F V R S : Type) where
  material_label : String
  shader_label : String
  blend_states : List (Param B)
  floats : List (Param F)
  booleans : List (Param Bool)
  vectors : List (Param V)
  rasterizer_states : List (Param R)
  samplers : List (Param S)
  textures : List (Param String)
deriving DecidableEq

/-- Translation of `ssbh_wgpu::ShaderProgram` as used by `material.rs`. -/
structure ShaderProgram where
  discard : Bool
  vertex_attributes : List String
  material_parameters : List ParamId
deriving DecidableEq

/-- Translation of `default_texture` in `material.rs`. -/
def default_texture (p : ParamId) : String :=
  match p with
  | .Texture0 => "/common/shader/sfxpbs/default_white"
  | .Texture1 => "/common/shader/sfxpbs/default_white"
  | .Texture2 => "#replace_cubemap"
  | .Texture3 => "/common/shader/sfxpbs/default_white"
  | .Texture4 => "/common/shader/sfxpbs/fighter/default_normal"
  | .Texture5 => "/common/shader/sfxpbs/default_black"
  | .Texture6 => "/common/shader/sfxpbs/fighter/default_params"
  | .Texture7 => "#replace_cubemap"
  | .Texture8 => "#replace_cubemap"
  | .Texture9 => "/common/shader/sfxpbs/default_black"
  | .Texture10 => "/common/shader/sfxpbs/default_white"
  | .Texture11 => "/common/shader/sfxpbs/default_white"
  | .Texture12 => "/common/shader/sfxpbs/default_white"
  | .Texture13 => "/common/shader/sfxpbs/default_white"
  | .Texture14 => "/common/shader/sfxpbs/default_black"
  | .Texture15 => "/common/shader/sfxpbs/default_white"
  | .Texture16 => "/common/shader/sfxpbs/default_white"
  | .Texture17 => "/common/shader/sfxpbs/default_white"
  | .Texture18 => "/common/shader/sfxpbs/default_white"
  | .Texture19 => "/common/shader/sfxpbs/default_white"
  | _ => "/common/shader/sfxpbs/default_white"

variable {B F V R S : Type}

/-- Translation of `apply_preset` in `material.rs`: keep `entry`'s label, take
everything else from `preset`, and rebuild the texture list from
`preset.textures`, looking each slot up in `entry.textures` and falling back
to `default_texture`. -/
def apply_preset (entry preset : MatlEntryData B F V R S) : MatlEntryData B F V R S :=
  { preset with
    material_label := entry.material_label
    textures := preset.textures.map fun preset_texture =>
      { param_id := preset_texture.param_id
        data := ((entry.textures.find? fun t => t.param_id == preset_texture.param_id).map
            Param.data).getD (default_texture preset_texture.param_id) } }

/-- Translation of `missing_parameters` in `material.rs`: filter the shader's
parameter list, keeping ids matched by no element of the chained iterator over
the entry's seven collections (chain order: booleans, floats, vectors,
textures, samplers, blend_states, rasterizer_states). -/
def missing_parameters (entry : MatlEntryData B F V R S) (program : ShaderProgram) :
    List ParamId :=
  program.material_parameters.filter fun param =>
    !((entry.booleans.map Param.param_id ++ entry.floats.map Param.param_id ++
        entry.vectors.map Param.param_id ++ entry.textures.map Param.param_id ++
        entry.samplers.map Param.param_id ++ entry.blend_states.map Param.param_id ++
        entry.rasterizer_states.map Param.param_id).any fun p => p == param)

/-- Translation of `unused_parameters` in `material.rs`: the same chained
iterator over the entry's seven collections, filtered down to the ids the
shader's parameter list does not contain. -/
def unused_parameters (entry : MatlEntryData B F V R S) (program : ShaderProgram) :
    List ParamId :=
  (entry.booleans.map Param.param_id ++ entry.floats.map Param.param_id ++
      entry.vectors.map Param.param_id ++ entry.textures.map Param.param_id ++
      entry.samplers.map Param.param_id ++ entry.blend_states.map Param.param_id ++
      entry.rasterizer_states.map Param.param_id).filter fun param =>
    !(program.material_parameters.contains param)

/-- The key order used by Rust `Vec::sort_by_key(|p| p.param_id as u64)`. -/
def paramLe (p q : Param B) : Prop :=
  p.param_id.toNat ≤ q.param_id.toNat

instance : DecidableRel (paramLe (B := B)) :=
  fun p q => Nat.decLe p.param_id.toNat q.param_id.toNat

instance : IsTotal (Param B) (paramLe (B := B)) :=
  ⟨fun p q => Nat.le_total p.param_id.toNat q.param_id.toNat⟩

instance : IsTrans (Param B) (paramLe (B := B)) :=
  ⟨fun _ _ _ h h' => Nat.le_trans h h'⟩

/-- Rust `Vec::sort_by_key(|p| p.param_id as u64)`: a stable sort by the
numeric value of the id (Rust's `sort_by_key` is stable; we use a stable
insertion sort). -/
def sortParams (l : List (Param B)) : List (Param B) :=
  l.insertionSort paramLe

/-- The trailing block shared by `add_parameters` and `remove_parameters`:
re-sort all seven family collections by numeric `ParamId`. -/
def sortEntry (e : MatlEntryData B F V R S) : MatlEntryData B F V R S :=
  { e with
    blend_states := sortParams e.blend_states
    floats := sortParams e.floats
    booleans := sortParams e.booleans
    vectors := sortParams e.vectors
    rasterizer_states := sortParams e.rasterizer_states
    samplers := sortParams e.samplers
    textures := sortParams e.textures }

/-- The loop body of `add_parameters`: classify `param_id` through the
`is_*` chain and push a default-valued record onto the matching collection
(floats get `0.0`, booleans `false`, vectors `Vector4::default()`, textures
`default_texture param_id`, the remaining families `Default::default()`). -/
def add_step [Inhabited B] [Inhabited F] [Inhabited V] [Inhabited R] [Inhabited S]
    (e : MatlEntryData B F V R S) (param_id : ParamId) : MatlEntryData B F V R S :=
  if is_blend param_id then
    { e with blend_states := e.blend_states ++ [{ param_id := param_id, data := default }] }
  else if is_float param_id then
    { e with floats := e.floats ++ [{ param_id := param_id, data := default }] }
  else if is_bool param_id then
    { e with booleans := e.booleans ++ [{ param_id := param_id, data := false }] }
  else if is_vector param_id then
    { e with vectors := e.vectors ++ [{ param_id := param_id, data := default }] }
  else if is_rasterizer param_id then
    { e with rasterizer_states :=
        e.rasterizer_states ++ [{ param_id := param_id, data := default }] }
  else if is_sampler param_id then
    { e with samplers := e.samplers ++ [{ param_id := param_id, data := default }] }
  else if is_texture param_id then
    { e with textures :=
        e.textures ++ [{ param_id := param_id, data := default_texture param_id }] }
  else
    e

/-- Translation of `add_parameters` in `material.rs`: run `add_step` over the
id list, then re-sort every family collection. -/
def add_parameters [Inhabited B] [Inhabited F] [Inhabited V] [Inhabited R] [Inhabited S]
    (e : MatlEntryData B F V R S) (parameters : List ParamId) : MatlEntryData B F V R S :=
  sortEntry (parameters.foldl add_step e)

/-- Rust `Vec::swap_remove(i)`: overwrite position `i` with the last element,
then pop the last element. -/
def swapRemove (l : List α) (i : Nat) : List α :=
  match l.getLast? with
  | none => l
  | some x => (l.set i x).dropLast

/-- The loop body of `remove_parameters`: search the seven collections in the
fixed order blend, float, bool, vector, rasterizer, sampler, texture for the
first record tagged `param` and `swap_remove` it. -/
def remove_step (e : MatlEntryData B F V R S) (param : ParamId) : MatlEntryData B F V R S :=
  match e.blend_states.findIdx? (fun p => p.param_id == param) with
  | some index => { e with blend_states := swapRemove e.blend_states index }
  | none =>
  match e.floats.findIdx? (fun p => p.param_id == param) with
  | some index => { e with floats := swapRemove e.floats index }
  | none =>
  match e.booleans.findIdx? (fun p => p.param_id == param) with
  | some index => { e with booleans := swapRemove e.booleans index }
  | none =>
  match e.vectors.findIdx? (fun p => p.param_id == param) with
  | some index => { e with vectors := swapRemove e.vectors index }
  | none =>
  match e.rasterizer_states.findIdx? (fun p => p.param_id == param) with
  | some index => { e with rasterizer_states := swapRemove e.rasterizer_states index }
  | none =>
  match e.samplers.findIdx? (fun p => p.param_id == param) with
  | some index => { e with samplers := swapRemove e.samplers index }
  | none =>
  match e.textures.findIdx? (fun p => p.param_id == param) with
  | some index => { e with textures := swapRemove e.textures index }
  | none => e

/-- Translation of `remove_parameters` in `material.rs`: run `remove_step`
over the id list, then re-sort every family collection. -/
def remove_parameters (e : MatlEntryData B F V R S) (parameters : List ParamId) :
    MatlEntryData B F V R S :=
  sortEntry (parameters.foldl remove_step e)

/-! ### Derived notions used in statements -/

/-- The sequence of ids present across the seven family collections, in the
chain order both diagnostic queries use (booleans, floats, vectors, textures,
samplers, blend_states, rasterizer_states). -/
def entryParamIds (e : MatlEntryData B F V R S) : List ParamId :=
  e.booleans.map Param.param_id ++ e.floats.map Param.param_id ++
    e.vectors.map Param.param_id ++ e.textures.map Param.param_id ++
    e.samplers.map Param.param_id ++ e.blend_states.map Param.param_id ++
    e.rasterizer_states.map Param.param_id

/-- How many records of a family collection are tagged with id `q`. -/
def idCount (q : ParamId) (l : List (Param α)) : Nat :=
  l.countP fun p => p.param_id == q

/-- Total number of records across the seven collections tagged with `q`. -/
def entryCount (q : ParamId) (e : MatlEntryData B F V R S) : Nat :=
  (entryParamIds e).count q

/-- The spec's storage invariant: within each family collection, every
`ParamId` appears at most once. -/
def atMostOncePerFamily (e : MatlEntryData B F V R S) : Prop :=
  (e.blend_states.map Param.param_id).Nodup ∧
    (e.floats.map Param.param_id).Nodup ∧
    (e.booleans.map Param.param_id).Nodup ∧
    (e.vectors.map Param.param_id).Nodup ∧
    (e.rasterizer_states.map Param.param_id).Nodup ∧
    (e.samplers.map Param.param_id).Nodup ∧
    (e.textures.map Param.param_id).Nodup

instance (e : MatlEntryData B F V R S) : Decidable (atMostOncePerFamily e) := by
  unfold atMostOncePerFamily
  infer_instance

/-- Strict ascending key order, as the claim about canonical sorting words it. -/
def paramLt (p q : Param B) : Prop :=
  p.param_id.toNat < q.param_id.toNat

instance : DecidableRel (paramLt (B := B)) :=
  fun p q => Nat.decLt p.param_id.toNat q.param_id.toNat

/-- Stated from the spec (§4.2) for comparison with `missing_parameters`:
every id of the shader's parameter list, in the shader's own order, that does
not appear in any of the entry's seven family collections. -/
def missing_parameters_spec (entry : MatlEntryData B F V R S) (program : ShaderProgram) :
    List ParamId :=
  program.material_parameters.filter fun param =>
    decide (param ∉ entry.blend_states.map Param.param_id ∧
      param ∉ entry.rasterizer_states.map Param.param_id ∧
      param ∉ entry.floats.map Param.param_id ∧
      param ∉ entry.booleans.map Param.param_id ∧
      param ∉ entry.vectors.map Param.param_id ∧
      param ∉ entry.samplers.map Param.param_id ∧
      param ∉ entry.textures.map Param.param_id)

/-- Stated from the spec's words for the amended unused-parameters claim:
scan the families in the fixed order the code actually uses — booleans,
floats, vectors, textures, samplers, blend states, rasterizer states — in
each family keeping the current collection order, and emit the ids the shader
does not read. -/
def unused_parameters_scan_spec (entry : MatlEntryData B F V R S) (program : ShaderProgram) :
    List ParamId :=
  (entry.booleans.map Param.param_id).filter
      (fun q => decide (q ∉ program.material_parameters)) ++
    (entry.floats.map Param.param_id).filter
      (fun q => decide (q ∉ program.material_parameters)) ++
    (entry.vectors.map Param.param_id).filter
      (fun q => decide (q ∉ program.material_parameters)) ++
    (entry.textures.map Param.param_id).filter
      (fun q => decide (q ∉ program.material_parameters)) ++
    (entry.samplers.map Param.param_id).filter
      (fun q => decide (q ∉ program.material_parameters)) ++
    (entry.blend_states.map Param.param_id).filter
      (fun q => decide (q ∉ program.material_parameters)) ++
    (entry.rasterizer_states.map Param.param_id).filter
      (fun q => decide (q ∉ program.material_parameters))

/-- The family scan order the unused-parameters claim asserts (blend, float,
bool, vector, texture, sampler, rasterizer); used to refute that claim. -/
def unused_parameters_claimed (entry : MatlEntryData B F V R S) (program : ShaderProgram) :
    List ParamId :=
  (entry.blend_states.map Param.param_id).filter
      (fun q => decide (q ∉ program.material_parameters)) ++
    (entry.floats.map Param.param_id).filter
      (fun q => decide (q ∉ program.material_parameters)) ++
    (entry.booleans.map Param.param_id).filter
      (fun q => decide (q ∉ program.material_parameters)) ++
    (entry.vectors.map Param.param_id).filter
      (fun q => decide (q ∉ program.material_parameters)) ++
    (entry.textures.map Param.param_id).filter
      (fun q => decide (q ∉ program.material_parameters)) ++
    (entry.samplers.map Param.param_id).filter
      (fun q => decide (q ∉ program.material_parameters)) ++
    (entry.rasterizer_states.map Param.param_id).filter
      (fun q => decide (q ∉ program.material_parameters))

/-- Stated from the spec (§4.5) for comparison with `apply_preset`: keep the
entry's material label, take the shader label and the six non-texture
collections verbatim from the preset, and rebuild the texture list from the
preset's slots, carrying over the entry's path for a slot id the entry
already has and defaulting the rest per id. -/
def apply_preset_spec (entry preset : MatlEntryData B F V R S) : MatlEntryData B F V R S :=
  { material_label := entry.material_label
    shader_label := preset.shader_label
    blend_states := preset.blend_states
    floats := preset.floats
    booleans := preset.booleans
    vectors := preset.vectors
    rasterizer_states := preset.rasterizer_states
    samplers := preset.samplers
    textures := preset.textures.map fun pt =>
      { param_id := pt.param_id
        data := match entry.textures.find? fun t => t.param_id == pt.param_id with
          | some t => t.data
          | none => default_texture pt.param_id } }

/-! ### Concrete inputs for witnesses and counterexamples -/

/-- An entry with all seven collections empty. -/
def emptyEntryU : MatlEntryData Unit Unit Unit Unit Unit :=
  { material_label := "material"
    shader_label := "shader"
    blend_states := []
    floats := []
    booleans := []
    vectors := []
    rasterizer_states := []
    samplers := []
    textures := [] }

/-- An entry holding one blend state and one boolean, exposing the family
scan order of `unused_parameters`. -/
def scanEntryU : MatlEntryData Unit Unit Unit Unit Unit :=
  { emptyEntryU with
    blend_states := [{ param_id := .BlendState0, data := () }]
    booleans := [{ param_id := .CustomBoolean0, data := false }] }

/-- An entry holding one record per family. -/
def sevenEntryU : MatlEntryData Unit Unit Unit Unit Unit :=
  { material_label := "material"
    shader_label := "shader"
    blend_states := [{ param_id := .BlendState0, data := () }]
    floats := [{ param_id := .CustomFloat8, data := () }]
    booleans := [{ param_id := .CustomBoolean1, data := true }]
    vectors := [{ param_id := .CustomVector0, data := () }]
    rasterizer_states := [{ param_id := .RasterizerState0, data := () }]
    samplers := [{ param_id := .Sampler0, data := () }]
    textures := [{ param_id := .Texture0, data := "a" }] }

/-- A shader reading no parameters. -/
def noParamShader : ShaderProgram :=
  { discard := false
    vertex_attributes := []
    material_parameters := [] }

/-- A shader reading one parameter of each family. -/
def sevenShader : ShaderProgram :=
  { discard := false
    vertex_attributes := []
    material_parameters :=
      [.BlendState0, .CustomFloat0, .CustomBoolean0, .CustomVector0, .RasterizerState0,
        .Sampler0, .Texture0] }

/-! ### Helper lemmas -/

lemma sortParams_perm (l : List (Param B)) : (sortParams l).Perm l :=
  List.perm_insertionSort _ l

lemma sortParams_sorted (l : List (Param B)) : List.Sorted paramLe (sortParams l) :=
  List.sorted_insertionSort _ l

lemma entryParamIds_sortEntry_perm (e : MatlEntryData B F V R S) :
    (entryParamIds (sortEntry e)).Perm (entryParamIds e) := by
  unfold entryParamIds sortEntry
  exact (((((((sortParams_perm e.booleans).map _).append
    ((sortParams_perm e.floats).map _)).append
    ((sortParams_perm e.vectors).map _)).append
    ((sortParams_perm e.textures).map _)).append
    ((sortParams_perm e.samplers).map _)).append
    ((sortParams_perm e.blend_states).map _)).append
    ((sortParams_perm e.rasterizer_states).map _)

lemma countP_eraseIdx (l : List α) (p : α → Bool) (i : Nat) (hi : i < l.length) :
    (l.eraseIdx i).countP p + (if p l[i] then 1 else 0) = l.countP p := by
  rw [List.eraseIdx_eq_take_drop_succ, List.countP_append]
  conv_rhs => rw [← List.take_append_drop i l, List.countP_append,
    List.drop_eq_getElem_cons hi, List.countP_cons]
  omega

lemma swapRemove_perm (l : List α) (i : Nat) (hi : i < l.length) :
    (swapRemove l i).Perm (l.eraseIdx i) := by
  have hne : l ≠ [] := List.ne_nil_of_length_pos (Nat.lt_of_le_of_lt (Nat.zero_le _) hi)
  unfold swapRemove
  rw [List.getLast?_eq_getLast l hne]
  show ((l.set i (l.getLast hne)).dropLast).Perm (l.eraseIdx i)
  rw [List.set_eq_take_append_cons_drop, if_pos hi,
    List.dropLast_append_of_ne_nil _ (List.cons_ne_nil _ _), List.eraseIdx_eq_take_drop_succ]
  apply List.Perm.append_left
  by_cases hd : l.drop (i + 1) = []
  · rw [hd]
    exact List.Perm.refl _
  · obtain ⟨b, bs, hbs⟩ := List.exists_cons_of_ne_nil hd
    rw [hbs, List.dropLast_cons₂]
    have hx : (b :: bs).getLast (List.cons_ne_nil b bs) = l.getLast hne := by
      rw [← List.getLast_congr _ (List.cons_ne_nil b bs) hbs]
      exact List.getLast_drop hd
    refine List.Perm.trans ?_
      (List.Perm.of_eq (List.dropLast_append_getLast (List.cons_ne_nil b bs)))
    rw [hx]
    exact (List.perm_append_singleton _ _).symm

lemma findIdx?_some_facts {l : List α} {p : α → Bool} {i : Nat}
    (h : l.findIdx? p = some i) : ∃ hi : i < l.length, p (l.get ⟨i, hi⟩) = true := by
  rw [List.findIdx?_eq_some_iff_findIdx_eq] at h
  obtain ⟨hi, hfi⟩ := h
  refine ⟨hi, ?_⟩
  have := @List.findIdx_getElem _ p l (hfi ▸ hi)
  simpa [hfi] using this

lemma findIdx?_none_countP {l : List α} {p : α → Bool}
    (h : l.findIdx? p = none) : l.countP p = 0 := by
  rw [List.findIdx?_eq_none_iff] at h
  exact List.countP_eq_zero.mpr fun a ha => by simp [h a ha]

lemma swapRemove_found_countP {l : List α} {p : α → Bool} {i : Nat}
    (h : l.findIdx? p = some i) (q : α → Bool) :
    (swapRemove l i).countP q + (if q (l.get ⟨i, (findIdx?_some_facts h).1⟩) then 1 else 0) =
      l.countP q := by
  obtain ⟨hi, -⟩ := findIdx?_some_facts h
  rw [(swapRemove_perm l i hi).countP_eq]
  simpa using countP_eraseIdx l q i hi

lemma idCount_swapRemove_found {l : List (Param α)} {a : ParamId} {i : Nat}
    (h : l.findIdx? (fun p => p.param_id == a) = some i) (q : ParamId) :
    idCount q (swapRemove l i) + (if q = a then 1 else 0) = idCount q l := by
  obtain ⟨hi, hp⟩ := findIdx?_some_facts h
  have hpid : (l.get ⟨i, hi⟩).param_id = a := by simpa using hp
  have := swapRemove_found_countP h (fun p => p.param_id == q)
  unfold idCount
  rw [← this, hpid]
  by_cases hqa : q = a
  · subst hqa
    simp
  · have hne : a ≠ q := fun h => hqa h.symm
    simp [hqa, hne]

lemma idCount_findIdx?_none {l : List (Param α)} {a : ParamId}
    (h : l.findIdx? (fun p => p.param_id == a) = none) : idCount a l = 0 :=
  findIdx?_none_countP h

lemma entryCount_eq (q : ParamId) (e : MatlEntryData B F V R S) :
    entryCount q e =
      idCount q e.booleans + idCount q e.floats + idCount q e.vectors +
        idCount q e.textures + idCount q e.samplers + idCount q e.blend_states +
        idCount q e.rasterizer_states := by
  simp [entryCount, entryParamIds, idCount, List.count_append, List.count_eq_countP,
    List.countP_map, Function.comp_def]
  omega

lemma entryCount_sortEntry (q : ParamId) (e : MatlEntryData B F V R S) :
    entryCount q (sortEntry e) = entryCount q e :=
  (entryParamIds_sortEntry_perm e).count_eq q

lemma foldl_rel {σ : Type _} {γ : Type _} (step : σ → γ → σ) (R : σ → σ → Prop)
    (hrefl : ∀ s, R s s) (htrans : ∀ s t u, R s t → R t u → R s u)
    (hstep : ∀ s a, R s (step s a)) : ∀ (l : List γ) (s : σ), R s (l.foldl step s) := by
  intro l
  induction l with
  | nil => intro s; exact hrefl s
  | cons a rest ih =>
    intro s
    rw [List.foldl_cons]
    exact htrans _ _ _ (hstep s a) (ih (step s a))

lemma remove_step_counts (e : MatlEntryData B F V R S) (a q : ParamId) :
    entryCount q (remove_step e a) = entryCount q e - (if q = a then 1 else 0) ∧
      idCount q (remove_step e a).blend_states ≤ idCount q e.blend_states ∧
      idCount q (remove_step e a).floats ≤ idCount q e.floats ∧
      idCount q (remove_step e a).booleans ≤ idCount q e.booleans ∧
      idCount q (remove_step e a).vectors ≤ idCount q e.vectors ∧
      idCount q (remove_step e a).rasterizer_states ≤ idCount q e.rasterizer_states ∧
      idCount q (remove_step e a).samplers ≤ idCount q e.samplers ∧
      idCount q (remove_step e a).textures ≤ idCount q e.textures := by
  unfold remove_step
  split
  case _ i h1 =>
    have hc := idCount_swapRemove_found h1 q
    rw [entryCount_eq, entryCount_eq]
    dsimp only
    by_cases hqa : q = a <;> simp only [hqa, if_pos, if_neg, if_true, if_false] at hc ⊢ <;>
      omega
  case _ h1 =>
  split
  case _ i h2 =>
    have hc := idCount_swapRemove_found h2 q
    rw [entryCount_eq, entryCount_eq]
    dsimp only
    by_cases hqa : q = a <;> simp only [hqa, if_pos, if_neg, if_true, if_false] at hc ⊢ <;>
      omega
  case _ h2 =>
  split
  case _ i h3 =>
    have hc := idCount_swapRemove_found h3 q
    rw [entryCount_eq, entryCount_eq]
    dsimp only
    by_cases hqa : q = a <;> simp only [hqa, if_pos, if_neg, if_true, if_false] at hc ⊢ <;>
      omega
  case _ h3 =>
  split
  case _ i h4 =>
    have hc := idCount_swapRemove_found h4 q
    rw [entryCount_eq, entryCount_eq]
    dsimp only
    by_cases hqa : q = a <;> simp only [hqa, if_pos, if_neg, if_true, if_false] at hc ⊢ <;>
      omega
  case _ h4 =>
  split
  case _ i h5 =>
    have hc := idCount_swapRemove_found h5 q
    rw [entryCount_eq, entryCount_eq]
    dsimp only
    by_cases hqa : q = a <;> simp only [hqa, if_pos, if_neg, if_true, if_false] at hc ⊢ <;>
      omega
  case _ h5 =>
  split
  case _ i h6 =>
    have hc := idCount_swapRemove_found h6 q
    rw [entryCount_eq, entryCount_eq]
    dsimp only
    by_cases hqa : q = a <;> simp only [hqa, if_pos, if_neg, if_true, if_false] at hc ⊢ <;>
      omega
  case _ h6 =>
  split
  case _ i h7 =>
    have hc := idCount_swapRemove_found h7 q
    rw [entryCount_eq, entryCount_eq]
    dsimp only
    by_cases hqa : q = a <;> simp only [hqa, if_pos, if_neg, if_true, if_false] at hc ⊢ <;>
      omega
  case _ h7 =>
    have z1 := idCount_findIdx?_none h1
    have z2 := idCount_findIdx?_none h2
    have z3 := idCount_findIdx?_none h3
    have z4 := idCount_findIdx?_none h4
    have z5 := idCount_findIdx?_none h5
    have z6 := idCount_findIdx?_none h6
    have z7 := idCount_findIdx?_none h7
    rw [entryCount_eq]
    by_cases hqa : q = a
    · subst hqa
      simp only [if_pos rfl]
      omega
    · simp only [if_neg hqa]
      omega

lemma foldl_remove_entryCount (ids : List ParamId) (e : MatlEntryData B F V R S)
    (q : ParamId) :
    entryCount q (ids.foldl remove_step e) = entryCount q e - ids.count q := by
  induction ids generalizing e with
  | nil => simp
  | cons a rest ih =>
    rw [List.foldl_cons, ih, (remove_step_counts e a q).1, List.count_cons]
    by_cases hqa : q = a
    · subst hqa
      simp
      omega
    · have hne : a ≠ q := fun h => hqa h.symm
      simp [hqa, hne]

lemma remove_parameters_entryCount (e : MatlEntryData B F V R S) (ids : List ParamId)
    (q : ParamId) :
    entryCount q (remove_parameters e ids) = entryCount q e - ids.count q := by
  unfold remove_parameters
  rw [entryCount_sortEntry, foldl_remove_entryCount]

lemma count_unused_parameters (e : MatlEntryData B F V R S) (s : ShaderProgram)
    (q : ParamId) (hq : s.material_parameters.contains q = false) :
    (unused_parameters e s).count q = entryCount q e := by
  unfold unused_parameters entryCount entryParamIds
  exact List.count_filter (by simp only [hq, Bool.not_false])

lemma mem_entryParamIds_count_pos (e : MatlEntryData B F V R S) (q : ParamId)
    (h : q ∈ entryParamIds e) : 0 < entryCount q e :=
  List.count_pos_iff.mpr h

lemma unused_parameters_eq_nil (e : MatlEntryData B F V R S) (s : ShaderProgram)
    (h : ∀ q ∈ entryParamIds e, s.material_parameters.contains q = true) :
    unused_parameters e s = [] := by
  unfold unused_parameters
  rw [List.filter_eq_nil_iff]
  intro q hq
  rw [h q hq]
  simp

lemma classify_total (p : ParamId) :
    (is_blend p || is_float p || is_bool p || is_vector p || is_rasterizer p ||
      is_sampler p || is_texture p) = true := by
  cases p <;> rfl

lemma add_step_frame [Inhabited B] [Inhabited F] [Inhabited V] [Inhabited R] [Inhabited S]
    (e : MatlEntryData B F V R S) (a : ParamId) :
    (add_step e a).material_label = e.material_label ∧
      (add_step e a).shader_label = e.shader_label ∧
      e.blend_states.Sublist (add_step e a).blend_states ∧
      e.floats.Sublist (add_step e a).floats ∧
      e.booleans.Sublist (add_step e a).booleans ∧
      e.vectors.Sublist (add_step e a).vectors ∧
      e.rasterizer_states.Sublist (add_step e a).rasterizer_states ∧
      e.samplers.Sublist (add_step e a).samplers ∧
      e.textures.Sublist (add_step e a).textures := by
  unfold add_step
  split_ifs <;>
    refine ⟨rfl, rfl, ?_, ?_, ?_, ?_, ?_, ?_, ?_⟩ <;>
      first
        | exact List.Sublist.refl _
        | exact List.sublist_append_left _ _

lemma entryParamIds_add_step_sublist [Inhabited B] [Inhabited F] [Inhabited V] [Inhabited R]
    [Inhabited S] (e : MatlEntryData B F V R S) (a : ParamId) :
    (entryParamIds e).Sublist (entryParamIds (add_step e a)) := by
  obtain ⟨-, -, h1, h2, h3, h4, h5, h6, h7⟩ := add_step_frame e a
  unfold entryParamIds
  exact ((((((h3.map _).append (h2.map _)).append (h4.map _)).append (h7.map _)).append
    (h6.map _)).append (h1.map _)).append (h5.map _)

lemma mem_entryParamIds_add_step_self [Inhabited B] [Inhabited F] [Inhabited V] [Inhabited R]
    [Inhabited S] (e : MatlEntryData B F V R S) (a : ParamId) :
    a ∈ entryParamIds (add_step e a) := by
  have htot := classify_total a
  unfold add_step
  split_ifs with hb hf hbo hv hr hs ht
  · simp [entryParamIds]
  · simp [entryParamIds]
  · simp [entryParamIds]
  · simp [entryParamIds]
  · simp [entryParamIds]
  · simp [entryParamIds]
  · simp [entryParamIds]
  · simp [hb, hf, hbo, hv, hr, hs, ht] at htot

lemma idCount_append (q : ParamId) (l₁ l₂ : List (Param α)) :
    idCount q (l₁ ++ l₂) = idCount q l₁ + idCount q l₂ :=
  List.countP_append _ _ _

lemma idCount_mk_singleton_self (a : ParamId) (d : α) :
    idCount a [{ param_id := a, data := d }] = 1 := by
  simp [idCount]

lemma idCount_mk_singleton_ne {q a : ParamId} (h : ¬ q = a) (d : α) :
    idCount q [{ param_id := a, data := d }] = 0 := by
  have h' : ¬ a = q := fun hh => h hh.symm
  simp [idCount, h']

lemma add_step_idCounts [Inhabited B] [Inhabited F] [Inhabited V] [Inhabited R] [Inhabited S]
    (e : MatlEntryData B F V R S) (a q : ParamId) :
    idCount q (add_step e a).blend_states ≤
        idCount q e.blend_states + (if q = a then 1 else 0) ∧
      idCount q (add_step e a).floats ≤ idCount q e.floats + (if q = a then 1 else 0) ∧
      idCount q (add_step e a).booleans ≤ idCount q e.booleans + (if q = a then 1 else 0) ∧
      idCount q (add_step e a).vectors ≤ idCount q e.vectors + (if q = a then 1 else 0) ∧
      idCount q (add_step e a).rasterizer_states ≤
        idCount q e.rasterizer_states + (if q = a then 1 else 0) ∧
      idCount q (add_step e a).samplers ≤ idCount q e.samplers + (if q = a then 1 else 0) ∧
      idCount q (add_step e a).textures ≤ idCount q e.textures + (if q = a then 1 else 0) ∧
      entryCount q (add_step e a) ≤ entryCount q e + (if q = a then 1 else 0) := by
  by_cases hqa : q = a
  · subst hqa
    have h1 : (if q = q then (1 : Nat) else 0) = 1 := if_pos rfl
    rw [h1]
    unfold add_step
    split_ifs <;>
      · simp only [entryCount_eq, idCount_append, idCount_mk_singleton_self]
        omega
  · have h0 : (if q = a then (1 : Nat) else 0) = 0 := if_neg hqa
    rw [h0]
    unfold add_step
    split_ifs <;>
      · simp only [entryCount_eq, idCount_append, idCount_mk_singleton_ne hqa]
        omega

lemma mem_entryParamIds_foldl_add [Inhabited B] [Inhabited F] [Inhabited V] [Inhabited R]
    [Inhabited S] (ids : List ParamId) (e : MatlEntryData B F V R S) (q : ParamId)
    (hq : q ∈ ids ∨ q ∈ entryParamIds e) :
    q ∈ entryParamIds (ids.foldl add_step e) := by
  induction ids generalizing e with
  | nil => exact hq.resolve_left (by simp)
  | cons a rest ih =>
    rw [List.foldl_cons]
    apply ih
    rcases hq with h | h
    · rcases List.mem_cons.mp h with rfl | h
      · exact Or.inr (mem_entryParamIds_add_step_self e q)
      · exact Or.inl h
    · exact Or.inr ((entryParamIds_add_step_sublist e a).subset h)

lemma mem_missing_parameters (e : MatlEntryData B F V R S) (s : ShaderProgram)
    (q : ParamId) :
    q ∈ missing_parameters e s ↔ q ∈ s.material_parameters ∧ q ∉ entryParamIds e := by
  unfold missing_parameters entryParamIds
  simp [List.mem_filter]

lemma missing_parameters_eq_nil (e : MatlEntryData B F V R S) (s : ShaderProgram)
    (h : ∀ q ∈ s.material_parameters, q ∈ entryParamIds e) :
    missing_parameters e s = [] := by
  rw [List.eq_nil_iff_forall_not_mem]
  intro q hqmem
  rw [mem_missing_parameters] at hqmem
  exact hqmem.2 (h q hqmem.1)

lemma idCount_sortParams (q : ParamId) (l : List (Param B)) :
    idCount q (sortParams l) = idCount q l :=
  (sortParams_perm l).countP_eq _

lemma count_map_pid (l : List (Param α)) (q : ParamId) :
    (l.map Param.param_id).count q = idCount q l := by
  simp [idCount, List.count_eq_countP, List.countP_map, Function.comp_def]

lemma nodup_map_pid_iff (l : List (Param α)) :
    (l.map Param.param_id).Nodup ↔ ∀ q : ParamId, idCount q l ≤ 1 := by
  rw [List.nodup_iff_count_le_one]
  constructor
  · intro h q
    simpa [count_map_pid] using h q
  · intro h q
    simpa [count_map_pid] using h q

lemma atMostOnce_iff (e : MatlEntryData B F V R S) :
    atMostOncePerFamily e ↔ ∀ q : ParamId,
      idCount q e.blend_states ≤ 1 ∧ idCount q e.floats ≤ 1 ∧ idCount q e.booleans ≤ 1 ∧
        idCount q e.vectors ≤ 1 ∧ idCount q e.rasterizer_states ≤ 1 ∧
        idCount q e.samplers ≤ 1 ∧ idCount q e.textures ≤ 1 := by
  unfold atMostOncePerFamily
  simp only [nodup_map_pid_iff]
  constructor
  · rintro ⟨h1, h2, h3, h4, h5, h6, h7⟩ q
    exact ⟨h1 q, h2 q, h3 q, h4 q, h5 q, h6 q, h7 q⟩
  · intro h
    exact ⟨fun q => (h q).1, fun q => (h q).2.1, fun q => (h q).2.2.1, fun q => (h q).2.2.2.1,
      fun q => (h q).2.2.2.2.1, fun q => (h q).2.2.2.2.2.1, fun q => (h q).2.2.2.2.2.2⟩

lemma sortEntry_idCounts (e : MatlEntryData B F V R S) (q : ParamId) :
    idCount q (sortEntry e).blend_states = idCount q e.blend_states ∧
      idCount q (sortEntry e).floats = idCount q e.floats ∧
      idCount q (sortEntry e).booleans = idCount q e.booleans ∧
      idCount q (sortEntry e).vectors = idCount q e.vectors ∧
      idCount q (sortEntry e).rasterizer_states = idCount q e.rasterizer_states ∧
      idCount q (sortEntry e).samplers = idCount q e.samplers ∧
      idCount q (sortEntry e).textures = idCount q e.textures :=
  ⟨(sortParams_perm _).countP_eq _, (sortParams_perm _).countP_eq _,
    (sortParams_perm _).countP_eq _, (sortParams_perm _).countP_eq _,
    (sortParams_perm _).countP_eq _, (sortParams_perm _).countP_eq _,
    (sortParams_perm _).countP_eq _⟩

lemma sortEntry_atMostOnce (e : MatlEntryData B F V R S) (h : atMostOncePerFamily e) :
    atMostOncePerFamily (sortEntry e) := by
  rw [atMostOnce_iff] at h ⊢
  intro q
  obtain ⟨s1, s2, s3, s4, s5, s6, s7⟩ := sortEntry_idCounts e q
  have hq := h q
  rw [s1, s2, s3, s4, s5, s6, s7]
  exact hq

lemma remove_parameters_atMostOnce (e : MatlEntryData B F V R S) (ids : List ParamId)
    (h : atMostOncePerFamily e) : atMostOncePerFamily (remove_parameters e ids) := by
  unfold remove_parameters
  apply sortEntry_atMostOnce
  have hfold := foldl_rel remove_step
    (fun s t => ∀ r : ParamId,
      idCount r t.blend_states ≤ idCount r s.blend_states ∧
        idCount r t.floats ≤ idCount r s.floats ∧
        idCount r t.booleans ≤ idCount r s.booleans ∧
        idCount r t.vectors ≤ idCount r s.vectors ∧
        idCount r t.rasterizer_states ≤ idCount r s.rasterizer_states ∧
        idCount r t.samplers ≤ idCount r s.samplers ∧
        idCount r t.textures ≤ idCount r s.textures)
    (fun _ r => ⟨le_refl _, le_refl _, le_refl _, le_refl _, le_refl _, le_refl _, le_refl _⟩)
    (fun _ _ _ hst htu r =>
      ⟨le_trans (htu r).1 (hst r).1, le_trans (htu r).2.1 (hst r).2.1,
        le_trans (htu r).2.2.1 (hst r).2.2.1, le_trans (htu r).2.2.2.1 (hst r).2.2.2.1,
        le_trans (htu r).2.2.2.2.1 (hst r).2.2.2.2.1,
        le_trans (htu r).2.2.2.2.2.1 (hst r).2.2.2.2.2.1,
        le_trans (htu r).2.2.2.2.2.2 (hst r).2.2.2.2.2.2⟩)
    (fun s a r =>
      ⟨(remove_step_counts s a r).2.1, (remove_step_counts s a r).2.2.1,
        (remove_step_counts s a r).2.2.2.1, (remove_step_counts s a r).2.2.2.2.1,
        (remove_step_counts s a r).2.2.2.2.2.1, (remove_step_counts s a r).2.2.2.2.2.2.1,
        (remove_step_counts s a r).2.2.2.2.2.2.2⟩)
    ids e
  rw [atMostOnce_iff] at h ⊢
  intro q
  have hq := h q
  have hf := hfold q
  exact ⟨le_trans hf.1 hq.1, le_trans hf.2.1 hq.2.1, le_trans hf.2.2.1 hq.2.2.1,
    le_trans hf.2.2.2.1 hq.2.2.2.1, le_trans hf.2.2.2.2.1 hq.2.2.2.2.1,
    le_trans hf.2.2.2.2.2.1 hq.2.2.2.2.2.1, le_trans hf.2.2.2.2.2.2 hq.2.2.2.2.2.2⟩

lemma add_step_atMostOnce [Inhabited B] [Inhabited F] [Inhabited V] [Inhabited R] [Inhabited S]
    (e : MatlEntryData B F V R S) (a : ParamId) (h : atMostOncePerFamily e)
    (ha : a ∉ entryParamIds e) : atMostOncePerFamily (add_step e a) := by
  have haz : entryCount a e = 0 := List.count_eq_zero.mpr ha
  have hsum := entryCount_eq a e
  rw [atMostOnce_iff] at h ⊢
  intro q
  have hq := h q
  have hb := add_step_idCounts e a q
  by_cases hqa : q = a
  · subst hqa
    have h1 : (if q = q then (1 : Nat) else 0) = 1 := if_pos rfl
    omega
  · have h0 : (if q = a then (1 : Nat) else 0) = 0 := if_neg hqa
    omega

lemma entryCount_add_step_notMem [Inhabited B] [Inhabited F] [Inhabited V] [Inhabited R]
    [Inhabited S] (e : MatlEntryData B F V R S) (a i : ParamId) (hia : i ≠ a)
    (hie : i ∉ entryParamIds e) : i ∉ entryParamIds (add_step e a) := by
  intro hmem
  have hpos := mem_entryParamIds_count_pos _ i hmem
  have hc := (add_step_idCounts e a i).2.2.2.2.2.2.2
  have h0 : (if i = a then (1 : Nat) else 0) = 0 := if_neg hia
  have hie0 : entryCount i e = 0 := List.count_eq_zero.mpr hie
  omega

lemma add_foldl_atMostOnce [Inhabited B] [Inhabited F] [Inhabited V] [Inhabited R] [Inhabited S] :
    ∀ (ids : List ParamId) (e : MatlEntryData B F V R S), atMostOncePerFamily e →
      ids.Nodup → (∀ i ∈ ids, i ∉ entryParamIds e) →
      atMostOncePerFamily (ids.foldl add_step e) := by
  intro ids
  induction ids with
  | nil =>
    intro e h _ _
    simpa using h
  | cons a rest ih =>
    intro e h hnd hdisj
    rw [List.foldl_cons]
    have hae : a ∉ entryParamIds e := hdisj a (List.mem_cons_self a rest)
    apply ih
    · exact add_step_atMostOnce e a h hae
    · exact List.Nodup.of_cons hnd
    · intro i hi
      have hia : i ≠ a := by
        intro hh
        subst hh
        exact (List.nodup_cons.mp hnd).1 hi
      exact entryCount_add_step_notMem e a i hia (hdisj i (List.mem_cons_of_mem a hi))

lemma add_parameters_atMostOnce [Inhabited B] [Inhabited F] [Inhabited V] [Inhabited R]
    [Inhabited S] (e : MatlEntryData B F V R S) (ids : List ParamId)
    (h : atMostOncePerFamily e) (hnd : ids.Nodup)
    (hdisj : ∀ i ∈ ids, i ∉ entryParamIds e) :
    atMostOncePerFamily (add_parameters e ids) := by
  unfold add_parameters
  exact sortEntry_atMostOnce _ (add_foldl_atMostOnce ids e h hnd hdisj)

lemma foldl_add_frame [Inhabited B] [Inhabited F] [Inhabited V] [Inhabited R] [Inhabited S]
    (ids : List ParamId) (e : MatlEntryData B F V R S) :
    (ids.foldl add_step e).material_label = e.material_label ∧
      (ids.foldl add_step e).shader_label = e.shader_label ∧
      e.blend_states.Sublist ((ids.foldl add_step e).blend_states) ∧
      e.floats.Sublist ((ids.foldl add_step e).floats) ∧
      e.booleans.Sublist ((ids.foldl add_step e).booleans) ∧
      e.vectors.Sublist ((ids.foldl add_step e).vectors) ∧
      e.rasterizer_states.Sublist ((ids.foldl add_step e).rasterizer_states) ∧
      e.samplers.Sublist ((ids.foldl add_step e).samplers) ∧
      e.textures.Sublist ((ids.foldl add_step e).textures) :=
  foldl_rel add_step
    (fun s t => t.material_label = s.material_label ∧ t.shader_label = s.shader_label ∧
      s.blend_states.Sublist t.blend_states ∧ s.floats.Sublist t.floats ∧
      s.booleans.Sublist t.booleans ∧ s.vectors.Sublist t.vectors ∧
      s.rasterizer_states.Sublist t.rasterizer_states ∧ s.samplers.Sublist t.samplers ∧
      s.textures.Sublist t.textures)
    (fun _ => ⟨rfl, rfl, List.Sublist.refl _, List.Sublist.refl _, List.Sublist.refl _,
      List.Sublist.refl _, List.Sublist.refl _, List.Sublist.refl _, List.Sublist.refl _⟩)
    (fun _ _ _ hst htu =>
      ⟨htu.1.trans hst.1, htu.2.1.trans hst.2.1, hst.2.2.1.trans htu.2.2.1,
        hst.2.2.2.1.trans htu.2.2.2.1, hst.2.2.2.2.1.trans htu.2.2.2.2.1,
        hst.2.2.2.2.2.1.trans htu.2.2.2.2.2.1, hst.2.2.2.2.2.2.1.trans htu.2.2.2.2.2.2.1,
        hst.2.2.2.2.2.2.2.1.trans htu.2.2.2.2.2.2.2.1,
        hst.2.2.2.2.2.2.2.2.trans htu.2.2.2.2.2.2.2.2⟩)
    (fun s a => add_step_frame s a) ids e

/-! ### Claim theorems -/

/-- C5: for every defined `ParamId`, exactly one of the seven family
predicates `is_blend`, `is_rasterizer`, `is_float`, `is_bool`, `is_vector`,
`is_sampler`, `is_texture` holds — the classification is total and the
predicates partition the id space disjointly. -/
theorem family_classifiers_partition (p : ParamId) :
    ([is_blend p, is_rasterizer p, is_float p, is_bool p, is_vector p, is_sampler p,
      is_texture p].count true) = 1 := by
  cases p <;> rfl

/-- C8: the default texture path table maps `Texture0` to the opaque-white
path, `Texture4` to the normal-map path, `Texture2`, `Texture7` and
`Texture8` to the cubemap placeholder token, and every id without an explicit
table entry (every non-texture id, which only the wildcard arm covers) to the
opaque-white path. -/
theorem default_texture_table :
    default_texture .Texture0 = "/common/shader/sfxpbs/default_white" ∧
      default_texture .Texture4 = "/common/shader/sfxpbs/fighter/default_normal" ∧
      default_texture .Texture2 = "#replace_cubemap" ∧
      default_texture .Texture7 = "#replace_cubemap" ∧
      default_texture .Texture8 = "#replace_cubemap" ∧
      ∀ p : ParamId, is_texture p = false →
        default_texture p = "/common/shader/sfxpbs/default_white" := by
  refine ⟨rfl, rfl, rfl, rfl, rfl, ?_⟩
  intro p hp
  cases p <;> first
    | rfl
    | simp [is_texture] at hp

/-- Witness for C8: the fallback arm of the table at a concrete non-texture
id. -/
theorem default_texture_table_witness :
    default_texture .CustomFloat0 = "/common/shader/sfxpbs/default_white" :=
  default_texture_table.2.2.2.2.2 .CustomFloat0 rfl

/-- C6: `missing_parameters` returns exactly the shader parameters, in the
shader's own order, that appear in none of the entry's seven family
collections (the operation is pure in this embedding). -/
theorem missing_parameters_eq_spec (e : MatlEntryData B F V R S) (s : ShaderProgram) :
    missing_parameters e s = missing_parameters_spec e s := by
  unfold missing_parameters missing_parameters_spec
  apply List.filter_congr
  intro q hq
  rw [Bool.eq_iff_iff]
  simp [List.any_eq_true, List.mem_append, not_or]
  tauto

/-- C2 (amended): `unused_parameters` equals the spec-side per-family scan in
the family order the code actually uses — booleans, floats, vectors,
textures, samplers, blend states, rasterizer states. -/
theorem unused_parameters_eq_scan_spec (e : MatlEntryData B F V R S) (s : ShaderProgram) :
    unused_parameters e s = unused_parameters_scan_spec e s := by
  have hpred : ∀ x : ParamId,
      (!(s.material_parameters.contains x)) = decide (x ∉ s.material_parameters) := by
    intro x
    by_cases hx : x ∈ s.material_parameters <;> simp [hx]
  unfold unused_parameters unused_parameters_scan_spec
  simp only [List.filter_append, hpred]

/-- Counterexample for C2 as stated: with one blend state and one boolean
present and a shader reading nothing, the code emits the boolean before the
blend state, not the claimed blend-first order. -/
theorem unused_parameters_claimed_counterexample :
    unused_parameters scanEntryU noParamShader = [.CustomBoolean0, .BlendState0] ∧
      unused_parameters_claimed scanEntryU noParamShader = [.BlendState0, .CustomBoolean0] ∧
      unused_parameters scanEntryU noParamShader ≠
        unused_parameters_claimed scanEntryU noParamShader := by
  decide

/-- C3: `apply_preset` keeps the entry's material label, takes the shader
label and the six non-texture collections verbatim from the preset, and
rebuilds the textures from the preset's slots, preserving the entry's path
per slot id and defaulting the rest (pure in this embedding). -/
theorem apply_preset_eq_spec (entry preset : MatlEntryData B F V R S) :
    apply_preset entry preset = apply_preset_spec entry preset := by
  unfold apply_preset apply_preset_spec
  congr 1
  apply List.map_congr_left
  intro pt hpt
  cases h : entry.textures.find? fun t => t.param_id == pt.param_id with
  | none => simp [h]
  | some t => simp [h]

/-- C1 (amended): after `add_parameters` or `remove_parameters` returns, each
of the seven family collections is sorted in ascending — non-strict — order
of the numeric value underlying `ParamId` (`paramLe`); strict ascent can fail
because duplicate ids survive the sort, see the counterexample. -/
theorem add_remove_parameters_sorted [Inhabited B] [Inhabited F] [Inhabited V] [Inhabited R]
    [Inhabited S] (e : MatlEntryData B F V R S) (ids : List ParamId) :
    (List.Sorted paramLe (add_parameters e ids).blend_states ∧
        List.Sorted paramLe (add_parameters e ids).floats ∧
        List.Sorted paramLe (add_parameters e ids).booleans ∧
        List.Sorted paramLe (add_parameters e ids).vectors ∧
        List.Sorted paramLe (add_parameters e ids).rasterizer_states ∧
        List.Sorted paramLe (add_parameters e ids).samplers ∧
        List.Sorted paramLe (add_parameters e ids).textures) ∧
      List.Sorted paramLe (remove_parameters e ids).blend_states ∧
        List.Sorted paramLe (remove_parameters e ids).floats ∧
        List.Sorted paramLe (remove_parameters e ids).booleans ∧
        List.Sorted paramLe (remove_parameters e ids).vectors ∧
        List.Sorted paramLe (remove_parameters e ids).rasterizer_states ∧
        List.Sorted paramLe (remove_parameters e ids).samplers ∧
        List.Sorted paramLe (remove_parameters e ids).textures :=
  ⟨⟨sortParams_sorted _, sortParams_sorted _, sortParams_sorted _, sortParams_sorted _,
      sortParams_sorted _, sortParams_sorted _, sortParams_sorted _⟩,
    sortParams_sorted _, sortParams_sorted _, sortParams_sorted _, sortParams_sorted _,
    sortParams_sorted _, sortParams_sorted _, sortParams_sorted _⟩

/-- Counterexample for C1 as stated: adding the same id twice leaves two
equal ids in the floats collection, which is then not strictly ascending. -/
theorem add_parameters_not_strictly_sorted :
    ((add_parameters emptyEntryU [.CustomFloat0, .CustomFloat0]).floats).map Param.param_id =
        [.CustomFloat0, .CustomFloat0] ∧
      ¬ List.Sorted paramLt (add_parameters emptyEntryU [.CustomFloat0, .CustomFloat0]).floats := by
  decide

/-- C4: the parameters reported missing against a shader, once added, leave
nothing missing against that shader. -/
theorem missing_parameters_after_add [Inhabited B] [Inhabited F] [Inhabited V] [Inhabited R]
    [Inhabited S] (e : MatlEntryData B F V R S) (s : ShaderProgram) :
    missing_parameters (add_parameters e (missing_parameters e s)) s = [] := by
  apply missing_parameters_eq_nil
  intro q hq
  unfold add_parameters
  refine ((entryParamIds_sortEntry_perm _).mem_iff).mpr ?_
  apply mem_entryParamIds_foldl_add
  by_cases hmem : q ∈ entryParamIds e
  · exact Or.inr hmem
  · exact Or.inl ((mem_missing_parameters e s q).mpr ⟨hq, hmem⟩)

/-- C9: the parameters reported unused against a shader, once removed, leave
nothing unused against that shader. -/
theorem unused_parameters_after_remove (e : MatlEntryData B F V R S) (s : ShaderProgram) :
    unused_parameters (remove_parameters e (unused_parameters e s)) s = [] := by
  apply unused_parameters_eq_nil
  intro q hq
  cases hcb : s.material_parameters.contains q with
  | false =>
    exfalso
    have hpos := mem_entryParamIds_count_pos _ q hq
    have hzero : entryCount q (remove_parameters e (unused_parameters e s)) = 0 := by
      rw [remove_parameters_entryCount, count_unused_parameters e s q hcb]
      omega
    omega
  | true => rfl

/-- C7 (amended): `remove_parameters` always preserves the at-most-once
invariant; `add_parameters` preserves it provided the id list is
duplicate-free and none of its ids is already present in the entry —
unconditional preservation under `add_parameters` fails, see the
counterexample. -/
theorem at_most_once_preservation [Inhabited B] [Inhabited F] [Inhabited V] [Inhabited R]
    [Inhabited S] :
    (∀ (e : MatlEntryData B F V R S) (ids : List ParamId), atMostOncePerFamily e →
        atMostOncePerFamily (remove_parameters e ids)) ∧
      ∀ (e : MatlEntryData B F V R S) (ids : List ParamId), atMostOncePerFamily e →
        ids.Nodup → (∀ i ∈ ids, i ∉ entryParamIds e) →
        atMostOncePerFamily (add_parameters e ids) :=
  ⟨fun e ids h => remove_parameters_atMostOnce e ids h,
    fun e ids h hnd hdisj => add_parameters_atMostOnce e ids h hnd hdisj⟩

/-- Witness for C7 (amended), at an entry holding one record per family. -/
theorem at_most_once_preservation_witness :
    atMostOncePerFamily (remove_parameters sevenEntryU [ParamId.BlendState0]) ∧
      atMostOncePerFamily (add_parameters sevenEntryU [ParamId.CustomFloat0]) :=
  ⟨at_most_once_preservation.1 sevenEntryU [ParamId.BlendState0] (by decide),
    at_most_once_preservation.2 sevenEntryU [ParamId.CustomFloat0] (by decide) (by decide)
      (by decide)⟩

/-- Counterexample for C7 as stated: adding the same id twice to an empty
entry (which trivially satisfies the invariant) leaves two records with the
same id in the floats collection. -/
theorem at_most_once_add_counterexample :
    atMostOncePerFamily emptyEntryU ∧
      ¬ atMostOncePerFamily (add_parameters emptyEntryU [.CustomFloat0, .CustomFloat0]) := by
  decide

/-- C10: `add_parameters` only inserts and re-sorts — both labels are
unchanged and every (id, value) record present in a family collection before
the call is still present after it. -/
theorem add_parameters_frame [Inhabited B] [Inhabited F] [Inhabited V] [Inhabited R]
    [Inhabited S] (e : MatlEntryData B F V R S) (ids : List ParamId) :
    (add_parameters e ids).material_label = e.material_label ∧
      (add_parameters e ids).shader_label = e.shader_label ∧
      (∀ p ∈ e.blend_states, p ∈ (add_parameters e ids).blend_states) ∧
      (∀ p ∈ e.floats, p ∈ (add_parameters e ids).floats) ∧
      (∀ p ∈ e.booleans, p ∈ (add_parameters e ids).booleans) ∧
      (∀ p ∈ e.vectors, p ∈ (add_parameters e ids).vectors) ∧
      (∀ p ∈ e.rasterizer_states, p ∈ (add_parameters e ids).rasterizer_states) ∧
      (∀ p ∈ e.samplers, p ∈ (add_parameters e ids).samplers) ∧
      ∀ p ∈ e.textures, p ∈ (add_parameters e ids).textures := by
  obtain ⟨h1, h2, h3, h4, h5, h6, h7, h8, h9⟩ := foldl_add_frame ids e
  exact ⟨h1, h2,
    fun p hp => (sortParams_perm _).mem_iff.mpr (h3.subset hp),
    fun p hp => (sortParams_perm _).mem_iff.mpr (h4.subset hp),
    fun p hp => (sortParams_perm _).mem_iff.mpr (h5.subset hp),
    fun p hp => (sortParams_perm _).mem_iff.mpr (h6.subset hp),
    fun p hp => (sortParams_perm _).mem_iff.mpr (h7.subset hp),
    fun p hp => (sortParams_perm _).mem_iff.mpr (h8.subset hp),
    fun p hp => (sortParams_perm _).mem_iff.mpr (h9.subset hp)⟩

/-- Witness for C10: the texture record of the one-per-family entry survives
adding a float id, and the label is unchanged. -/
theorem add_parameters_frame_witness :
    (add_parameters sevenEntryU [ParamId.CustomFloat0]).material_label = "material" ∧
      ({ param_id := .Texture0, data := "a" } : Param String) ∈
        (add_parameters sevenEntryU [ParamId.CustomFloat0]).textures := by
  refine ⟨?_, ?_⟩
  · rw [(add_parameters_frame sevenEntryU [ParamId.CustomFloat0]).1]
    rfl
  · exact (add_parameters_frame sevenEntryU [ParamId.CustomFloat0]).2.2.2.2.2.2.2.2
      { param_id := .Texture0, data := "a" } (by decide)
